import Mathlib

/-!
# PRTP (Pipelined Reliable Transfer Protocol): a verification development

A shallow embedding of the PRTP implementation: the wire packet codec
(`prtp_packet.py`), the Go-Back-N receiver engine (`WebServerUDP.py`) and the
Go-Back-N sender engine with AIMD congestion control (`WebClientUDP.py`).
Bytes are modelled as natural numbers below 256, byte strings as `List Nat`,
Python's arbitrary-precision integers as `Nat`, and the float-valued
congestion variables as exact rationals.
-/

namespace PRTP

/-! ## Byte-level helpers (big-endian packing, `struct.pack('!IIHHBBBBI', ...)`) -/

/-- Big-endian 2-byte encoding of a 16-bit value. -/
def toBytes2 (x : Nat) : List Nat :=
  [x / 256 % 256, x % 256]

/-- Big-endian 4-byte encoding of a 32-bit value. -/
def toBytes4 (x : Nat) : List Nat :=
  [x / 16777216 % 256, x / 65536 % 256, x / 256 % 256, x % 256]

/-- Big-endian decoding of 2 bytes. -/
def ofBytes2 (b0 b1 : Nat) : Nat :=
  b0 * 256 + b1

/-- Big-endian decoding of 4 bytes. -/
def ofBytes4 (b0 b1 b2 b3 : Nat) : Nat :=
  ((b0 * 256 + b1) * 256 + b2) * 256 + b3

/-- The 20-byte PRTP header: seq (4B), ack (4B), window (2B), checksum (2B),
flags (1B), three reserved zero bytes, timestamp (4B); all big-endian,
mirroring `struct.pack('!IIHHBBBBI', ...)`. -/
def packHeader (seq ack win ck flags ts : Nat) : List Nat :=
  toBytes4 seq ++ toBytes4 ack ++ toBytes2 win ++ toBytes2 ck ++
    [flags % 256, 0, 0, 0] ++ toBytes4 ts

/-! ## Internet checksum (16-bit one's complement, `calculate_checksum`) -/

/-- Split a byte string into big-endian 16-bit words; an odd final byte is
shifted left by 8 (low byte zero), as in the source's word loop. -/
def words : List Nat → List Nat
  | [] => []
  | [b] => [b * 256]
  | b1 :: b2 :: rest => (b1 * 256 + b2) :: words rest

/-- One accumulation step: add the word, then fold the carry back in
(`checksum = (checksum & 0xFFFF) + (checksum >> 16)`). -/
def checksumStep (acc w : Nat) : Nat :=
  (acc + w) % 65536 + (acc + w) / 65536

/-- The Internet checksum of a byte string: accumulate all 16-bit words with
end-around carry, then take the one's complement (`~checksum & 0xFFFF`). -/
def chksum (bs : List Nat) : Nat :=
  65535 - (List.foldl checksumStep 0 (words bs)) % 65536

/-! ## The PRTP packet -/

/-- A PRTP packet: header fields plus payload, as in class `PRTPPacket`. -/
structure PRTPPacket where
  seq_num : Nat
  ack_num : Nat
  window_size : Nat
  flags : Nat
  data : List Nat
  timestamp : Nat
  checksum : Nat
  deriving Repr, DecidableEq

def HEADER_SIZE : Nat := 20
def MAX_DATA_SIZE : Nat := 1024
def MAX_PACKET_SIZE : Nat := HEADER_SIZE + MAX_DATA_SIZE
def FLAG_SYN : Nat := 1
def FLAG_ACK : Nat := 2
def FLAG_FIN : Nat := 4
def FLAG_RST : Nat := 8

namespace PRTPPacket

/-- `calculate_checksum`: checksum over the header with a zero checksum field
and zero reserved bytes, followed by the payload. -/
def calculate_checksum (p : PRTPPacket) : Nat :=
  chksum (packHeader p.seq_num p.ack_num p.window_size 0 p.flags p.timestamp ++ p.data)

/-- `serialize`: header (with the freshly computed checksum at offset 10)
followed by the payload. -/
def serialize (p : PRTPPacket) : List Nat :=
  packHeader p.seq_num p.ack_num p.window_size p.calculate_checksum p.flags
    p.timestamp ++ p.data

/-- The packet object after `serialize` has run: `serialize` stores the
computed checksum into the packet's `checksum` attribute. -/
def afterSerialize (p : PRTPPacket) : PRTPPacket :=
  { p with checksum := p.calculate_checksum }

/-! Field extraction from raw bytes (`struct.unpack('!IIHHBBBBI', ...)`). -/

def parseSeq (bs : List Nat) : Nat :=
  ofBytes4 (bs.getD 0 0) (bs.getD 1 0) (bs.getD 2 0) (bs.getD 3 0)

def parseAck (bs : List Nat) : Nat :=
  ofBytes4 (bs.getD 4 0) (bs.getD 5 0) (bs.getD 6 0) (bs.getD 7 0)

def parseWin (bs : List Nat) : Nat :=
  ofBytes2 (bs.getD 8 0) (bs.getD 9 0)

/-- The checksum field as stored on the wire (bytes 10 and 11). -/
def storedChecksum (bs : List Nat) : Nat :=
  ofBytes2 (bs.getD 10 0) (bs.getD 11 0)

def parseFlags (bs : List Nat) : Nat :=
  bs.getD 12 0

def parseTs (bs : List Nat) : Nat :=
  ofBytes4 (bs.getD 16 0) (bs.getD 17 0) (bs.getD 18 0) (bs.getD 19 0)

/-- The checksum `deserialize` recomputes: it re-packs the parsed fields with
a zero checksum field and zero reserved bytes (whatever the wire carried
there) and checksums that buffer plus the payload. -/
def recomputedChecksum (bs : List Nat) : Nat :=
  chksum (packHeader (parseSeq bs) (parseAck bs) (parseWin bs) 0 (parseFlags bs)
    (parseTs bs) ++ bs.drop HEADER_SIZE)

/-- `deserialize`: reject inputs shorter than 20 bytes, parse the header,
take the whole remainder as payload, and accept only if the recomputed
checksum matches the stored one. -/
def deserialize (bs : List Nat) : Option PRTPPacket :=
  if bs.length < HEADER_SIZE then none
  else if storedChecksum bs = recomputedChecksum bs then
    some { seq_num := parseSeq bs, ack_num := parseAck bs,
           window_size := parseWin bs, flags := parseFlags bs,
           data := bs.drop HEADER_SIZE, timestamp := parseTs bs,
           checksum := storedChecksum bs }
  else none

end PRTPPacket

/-- Flip bit `k` of a byte string: bit `k % 8` (value `2 ^ (k % 8)`) of the
byte at offset `k / 8`. -/
def flipBit (bs : List Nat) (k : Nat) : List Nat :=
  bs.set (k / 8) (Nat.xor (bs.getD (k / 8) 0) (2 ^ (k % 8)))

/-! ## The Go-Back-N receiver engine (`WebServerUDP.py`, class `GoBackNReceiver`) -/

def MAX_BUFFER_SIZE : Nat := 65535

/-- The receiver's per-session state. The socket and peer address are
external collaborators and are not part of the state. -/
structure GoBackNReceiver where
  seq_num : Nat
  expected_seq : Nat
  received_data : List Nat
  available_buffer : Nat
  deriving Repr, DecidableEq

namespace GoBackNReceiver

/-- The ACK packet `_send_ack` builds and transmits: `seq_num` is the
receiver's own sequence number, `window_size` the current available buffer.
(`serialize` then stamps a checksum; the emitted fields are what matters
here, so the ACK is recorded as a packet with those fields.) -/
def send_ack (st : GoBackNReceiver) (ack : Nat) : PRTPPacket :=
  { seq_num := st.seq_num, ack_num := ack, window_size := st.available_buffer,
    flags := FLAG_ACK, data := [], timestamp := 0, checksum := 0 }

/-- `handle_incoming_frame`: Go-Back-N receiver logic for one checksum-valid
frame. Returns the new state, the list of ACK packets sent (in order), and
the accepted flag. Python's `max(0, MAX_BUFFER_SIZE - len(...))` over ints
equals truncated `Nat` subtraction. -/
def handle_incoming_frame (st : GoBackNReceiver) (packet : PRTPPacket) :
    GoBackNReceiver × List PRTPPacket × Bool :=
  if packet.seq_num = st.expected_seq then
    let st1 : GoBackNReceiver :=
      { st with received_data := st.received_data ++ packet.data,
                available_buffer :=
                  MAX_BUFFER_SIZE - (st.received_data ++ packet.data).length }
    let st2 : GoBackNReceiver := { st1 with expected_seq := st1.expected_seq + 1 }
    (st2, [st1.send_ack st1.expected_seq], true)
  else if packet.seq_num < st.expected_seq then
    (st, [st.send_ack packet.seq_num], false)
  else
    if st.expected_seq > 0 then
      (st, [st.send_ack (st.expected_seq - 1)], false)
    else
      (st, [], false)

/-- One iteration of the `receive` loop on an incoming datagram: deserialize
(validating the checksum); a `none` result is discarded with no state change
and no ACK; otherwise the frame is handed to `handle_incoming_frame`
unconditionally — no flag is inspected. -/
def receiveStep (st : GoBackNReceiver) (datagram : List Nat) :
    GoBackNReceiver × List PRTPPacket :=
  match PRTPPacket.deserialize datagram with
  | none => (st, [])
  | some packet =>
      let r := st.handle_incoming_frame packet
      (r.1, r.2.1)

end GoBackNReceiver

/-! ## The Go-Back-N sender engine (`WebClientUDP.py`, class `GoBackNSender`) -/

/-- The AIMD congestion-control state (`self.state`). -/
inductive CState where
  | slow_start
  | congestion_avoidance
  deriving Repr, DecidableEq

/-- The sender's state during `send_data`. `chunks` is the fixed list of
payload chunks of the current transfer (`total_packets = chunks.length`);
`send_buffer` maps a sequence number to the stored payload, `none` when
absent; `cwnd` and `ssthresh` are the float-valued congestion variables,
embedded as exact rationals; the retransmission timer is modelled by its
running flag (wall-clock start times are external). -/
structure GoBackNSender where
  base : Nat
  next_seq_num : Nat
  chunks : List (List Nat)
  send_buffer : Nat → Option (List Nat)
  cwnd : ℚ
  ssthresh : ℚ
  state : CState
  receiver_window : Nat
  max_window_size : Nat
  timer_running : Bool

namespace GoBackNSender

/-- The data packet built for sequence number `seq` in `send_data`. -/
def dataPacket (st : GoBackNSender) (seq : Nat) : PRTPPacket :=
  { seq_num := seq, ack_num := 0, window_size := 0, flags := FLAG_ACK,
    data := st.chunks.getD seq [], timestamp := 0, checksum := 0 }

/-- `effective_window = min(int(self.cwnd), int(receiver_window_packets),
self.max_window_size)`; `int` truncation of the nonnegative float values is
flooring, and `receiver_window / MSS` floors to `Nat` division by 1024. -/
def effectiveWindow (st : GoBackNSender) : Nat :=
  min (min st.cwnd.floor.toNat (st.receiver_window / MAX_DATA_SIZE))
    st.max_window_size

/-- `total_packets`: the number of chunks of the current transfer. -/
def total_packets (st : GoBackNSender) : Nat :=
  st.chunks.length

/-- One pass of the inner transmission loop: if the guard
`next_seq_num < total_packets ∧ next_seq_num < base + effective_window`
holds, send the next fresh segment (storing it in `send_buffer`, starting
the timer when the window was empty) — otherwise nothing happens. Returns
the new state and the packets put on the wire. -/
def stepSend (st : GoBackNSender) : GoBackNSender × List PRTPPacket :=
  if st.next_seq_num < st.total_packets ∧
      st.next_seq_num < st.base + st.effectiveWindow then
    let packet := st.dataPacket st.next_seq_num
    ({ st with
        send_buffer := fun k =>
          if k = st.next_seq_num then some packet.data else st.send_buffer k,
        timer_running :=
          if st.base = st.next_seq_num then true else st.timer_running,
        next_seq_num := st.next_seq_num + 1 },
      [packet])
  else (st, [])

/-- `_handle_ack` on a received, checksum-valid, ACK-flagged packet. The
advertised window is recorded unconditionally (0 mapped to 65535) before the
`ack_num >= base` test; a covering ACK trims the buffer over
`[base, ack_num]`, updates the congestion variables, slides `base`, and
restarts or stops the timer. -/
def stepAck (st : GoBackNSender) (ack_packet : PRTPPacket) :
    GoBackNSender × List PRTPPacket :=
  let rw := if ack_packet.window_size > 0 then ack_packet.window_size else 65535
  let st := { st with receiver_window := rw }
  if ack_packet.ack_num ≥ st.base then
    let ack_num := ack_packet.ack_num
    let newly_acked : Nat := ack_num - st.base + 1
    let buf := fun k =>
      if st.base ≤ k ∧ k ≤ ack_num then none else st.send_buffer k
    let st :=
      match st.state with
      | CState.slow_start =>
          let c := st.cwnd + (newly_acked : ℚ)
          { st with cwnd := c,
                    state := if c ≥ st.ssthresh then CState.congestion_avoidance
                             else CState.slow_start }
      | CState.congestion_avoidance =>
          { st with cwnd := st.cwnd + (newly_acked : ℚ) / st.cwnd }
    let st := { st with send_buffer := buf, base := ack_num + 1 }
    ({ st with timer_running := decide (st.base < st.next_seq_num) }, [])
  else (st, [])

/-- The packets `_retransmit_window` puts back on the wire: every buffered
segment in `[base, next_seq_num)`, in order. -/
def retransmitPackets (st : GoBackNSender) : List PRTPPacket :=
  (List.range (st.next_seq_num - st.base)).filterMap fun i =>
    (st.send_buffer (st.base + i)).map fun d =>
      { seq_num := st.base + i, ack_num := 0, window_size := 0,
        flags := FLAG_ACK, data := d, timestamp := 0, checksum := 0 }

/-- The timeout branch of the progress loop: when the timer is running and
`base < total_packets` and the RTO has elapsed, apply multiplicative
decrease (`ssthresh = max(cwnd / 2, 2.0)`, `cwnd = 1.0`, back to slow
start), retransmit the whole window, and restart the timer. -/
def stepTimeout (st : GoBackNSender) : GoBackNSender × List PRTPPacket :=
  if st.timer_running = true ∧ st.base < st.total_packets then
    ({ st with ssthresh := max (st.cwnd / 2) 2,
               cwnd := 1,
               state := CState.slow_start,
               timer_running := true },
      st.retransmitPackets)
  else (st, [])

/-- A sender event: one fresh-segment transmission attempt, one incoming
ACK-flagged packet, or one firing of the retransmission timeout. -/
inductive Event where
  | send
  | ack (packet : PRTPPacket)
  | timeout

/-- Dispatch one event. -/
def step (st : GoBackNSender) : Event → GoBackNSender × List PRTPPacket
  | Event.send => st.stepSend
  | Event.ack packet => st.stepAck packet
  | Event.timeout => st.stepTimeout

/-- Run a list of events, oldest first, discarding outputs. -/
def run (st : GoBackNSender) : List Event → GoBackNSender
  | [] => st
  | e :: es => run (st.step e).1 es

/-- The sender state right after a successful handshake with initial
sequence number `s0`, about to send `chunks` (`__init__` plus `connect`):
empty buffer, `cwnd = 1.0`, `ssthresh = 16.0`, slow start, timer off. -/
def mkInit (s0 : Nat) (chunks : List (List Nat)) (rwnd maxw : Nat) :
    GoBackNSender :=
  { base := s0, next_seq_num := s0, chunks := chunks,
    send_buffer := fun _ => none, cwnd := 1, ssthresh := 16,
    state := CState.slow_start, receiver_window := rwnd,
    max_window_size := maxw, timer_running := false }

/-- States reachable from `st` by events whose ACKs acknowledge only
sequence numbers below `next_seq_num` (every ACK the protocol's own
receiver can produce satisfies this, since it only ever acknowledges a
sequence number it received). -/
inductive ReachableFrom (st : GoBackNSender) : GoBackNSender → Prop
  | refl : ReachableFrom st st
  | send {s : GoBackNSender} :
      ReachableFrom st s → ReachableFrom st (s.stepSend).1
  | ack {s : GoBackNSender} (packet : PRTPPacket) :
      ReachableFrom st s → packet.ack_num < s.next_seq_num ∨
        packet.ack_num < s.base →
      ReachableFrom st (s.stepAck packet).1
  | timeout {s : GoBackNSender} :
      ReachableFrom st s → ReachableFrom st (s.stepTimeout).1

/-- The sliding-window invariant of the sender (spec §3). -/
def WindowInv (st : GoBackNSender) : Prop :=
  st.base ≤ st.next_seq_num ∧
  (∀ k, (st.send_buffer k).isSome = true ↔
    st.base ≤ k ∧ k < st.next_seq_num) ∧
  (st.timer_running = true ↔ st.base < st.next_seq_num)

end GoBackNSender

/-- The weight of the byte at offset `i` in the 16-bit word sum. -/
def wScale (i : Nat) : Nat := if i % 2 = 0 then 256 else 1

/-- The input with the checksum field (bytes 10, 11) and the reserved bytes
(13, 14, 15) replaced by zero. -/
def zeroCkList (bs : List Nat) : List Nat :=
  [bs.getD 0 0, bs.getD 1 0, bs.getD 2 0, bs.getD 3 0, bs.getD 4 0, bs.getD 5 0,
   bs.getD 6 0, bs.getD 7 0, bs.getD 8 0, bs.getD 9 0, 0, 0, bs.getD 12 0,
   0, 0, 0, bs.getD 16 0, bs.getD 17 0, bs.getD 18 0, bs.getD 19 0] ++ bs.drop 20

/-! ## Concrete sample inputs used by witnesses and counterexamples -/

/-- A small sample packet. -/
def samplePacket : PRTPPacket :=
  { seq_num := 7, ack_num := 3, window_size := 1000, flags := 2,
    data := [104, 105], timestamp := 123456, checksum := 0 }

/-- A packet whose payload is longer than `MAX_DATA_SIZE`: its serialization
is 1045 bytes, above `MAX_PACKET_SIZE` = 1044. -/
def bigPacket : PRTPPacket :=
  { seq_num := 1, ack_num := 0, window_size := 0, flags := 2,
    data := List.replicate 1025 65, timestamp := 0, checksum := 0 }

/-- A mid-session receiver state. -/
def sampleReceiver : GoBackNReceiver :=
  { seq_num := 0, expected_seq := 1, received_data := [104],
    available_buffer := 65534 }

/-- A SYN-flagged (non-ACK) packet whose sequence number matches
`sampleReceiver`'s next expected sequence number. -/
def synDataPacket : PRTPPacket :=
  { seq_num := 1, ack_num := 0, window_size := 0, flags := 1, data := [42],
    timestamp := 0, checksum := 0 }

/-- An in-order data packet for `sampleReceiver`. -/
def dataPacket1 : PRTPPacket :=
  { seq_num := 1, ack_num := 0, window_size := 0, flags := 2, data := [100],
    timestamp := 0, checksum := 0 }

/-- A receiver whose delivery buffer is already full: `available_buffer`
is 0. -/
def fullReceiver : GoBackNReceiver :=
  { seq_num := 0, expected_seq := 5, received_data := List.replicate 65535 1,
    available_buffer := 0 }

/-- In-order data arriving at the full receiver. -/
def fullPacket : PRTPPacket :=
  { seq_num := 5, ack_num := 0, window_size := 0, flags := 2, data := [7, 7],
    timestamp := 0, checksum := 0 }

/-- A mid-transfer sender state: `base = 5` with segments 5 and 6 in
flight. -/
def sampleSender : GoBackNSender :=
  { base := 5, next_seq_num := 7,
    chunks := [[1], [2], [3], [4], [5], [6], [7], [8]],
    send_buffer := fun k => if k = 5 ∨ k = 6 then some [0] else none,
    cwnd := 4, ssthresh := 16, state := CState.slow_start,
    receiver_window := 65535, max_window_size := 64, timer_running := true }

/-- A stale ACK (`ack_num = 3`, below `sampleSender`'s base of 5)
advertising a 2048-byte window. -/
def staleAck : PRTPPacket :=
  { seq_num := 0, ack_num := 3, window_size := 2048, flags := 2, data := [],
    timestamp := 0, checksum := 0 }

/-- A stale ACK advertising a window of only 500 bytes (below one MSS). -/
def shrinkAck : PRTPPacket :=
  { seq_num := 0, ack_num := 0, window_size := 500, flags := 2, data := [],
    timestamp := 0, checksum := 0 }

/-- An ACK acknowledging segment 5, which was never sent. -/
def wildAck : PRTPPacket :=
  { seq_num := 0, ack_num := 5, window_size := 65535, flags := 2, data := [],
    timestamp := 0, checksum := 0 }

/-- A freshly connected sender about to send three one-byte chunks. -/
def senderInit3 : GoBackNSender := GoBackNSender.mkInit 0 [[1], [2], [3]] 65535 64

/-- A freshly connected sender with a single chunk. -/
def senderInit1 : GoBackNSender := GoBackNSender.mkInit 0 [[1]] 65535 64

/-- The sender after transmitting its first (and only) segment. -/
def senderAfterSend1 : GoBackNSender := (senderInit1.stepSend).1

/-- A freshly connected sender whose initial sequence number is 1 (as after
the real handshake), with three chunks. -/
def senderInitB : GoBackNSender :=
  GoBackNSender.mkInit 1 [[1], [2], [3]] 65535 64

/-- The event trace behind claim C6's counterexample: send segment 1, then
receive a stale ACK that shrinks the advertised window below one MSS while
the segment is still in flight. -/
def c6Events : List GoBackNSender.Event :=
  [GoBackNSender.Event.send, GoBackNSender.Event.ack shrinkAck]

/-! ## Codec lemmas -/

lemma chksum_le (bs : List Nat) : chksum bs ≤ 65535 :=
  Nat.sub_le _ _

lemma packHeader_eq (seq ack win ck flags ts : Nat) :
    packHeader seq ack win ck flags ts =
      [seq / 16777216 % 256, seq / 65536 % 256, seq / 256 % 256, seq % 256,
       ack / 16777216 % 256, ack / 65536 % 256, ack / 256 % 256, ack % 256,
       win / 256 % 256, win % 256, ck / 256 % 256, ck % 256,
       flags % 256, 0, 0, 0,
       ts / 16777216 % 256, ts / 65536 % 256, ts / 256 % 256, ts % 256] :=
  rfl

lemma packHeader_length (seq ack win ck flags ts : Nat) :
    (packHeader seq ack win ck flags ts).length = 20 := by
  rw [packHeader_eq]; rfl

lemma packHeader_bytes_lt (seq ack win ck flags ts : Nat) :
    ∀ b ∈ packHeader seq ack win ck flags ts, b < 256 := by
  rw [packHeader_eq]
  intro b hb
  simp only [List.mem_cons, List.not_mem_nil, or_false] at hb
  rcases hb with rfl | rfl | rfl | rfl | rfl | rfl | rfl | rfl | rfl | rfl |
    rfl | rfl | rfl | rfl | rfl | rfl | rfl | rfl | rfl | rfl <;> omega

namespace PRTPPacket

lemma serialize_length (p : PRTPPacket) :
    p.serialize.length = 20 + p.data.length := by
  unfold serialize
  rw [List.length_append, packHeader_length]

lemma serialize_bytes_lt (p : PRTPPacket) (hd : ∀ b ∈ p.data, b < 256) :
    ∀ b ∈ p.serialize, b < 256 := by
  unfold serialize
  intro b hb
  rcases List.mem_append.mp hb with h | h
  · exact packHeader_bytes_lt _ _ _ _ _ _ b h
  · exact hd b h

lemma parseSeq_serialize (p : PRTPPacket) (h : p.seq_num < 4294967296) :
    parseSeq p.serialize = p.seq_num := by
  have e : parseSeq p.serialize =
      ofBytes4 (p.seq_num / 16777216 % 256) (p.seq_num / 65536 % 256)
        (p.seq_num / 256 % 256) (p.seq_num % 256) := rfl
  rw [e]; unfold ofBytes4; omega

lemma parseAck_serialize (p : PRTPPacket) (h : p.ack_num < 4294967296) :
    parseAck p.serialize = p.ack_num := by
  have e : parseAck p.serialize =
      ofBytes4 (p.ack_num / 16777216 % 256) (p.ack_num / 65536 % 256)
        (p.ack_num / 256 % 256) (p.ack_num % 256) := rfl
  rw [e]; unfold ofBytes4; omega

lemma parseWin_serialize (p : PRTPPacket) (h : p.window_size < 65536) :
    parseWin p.serialize = p.window_size := by
  have e : parseWin p.serialize =
      ofBytes2 (p.window_size / 256 % 256) (p.window_size % 256) := rfl
  rw [e]; unfold ofBytes2; omega

lemma storedChecksum_serialize (p : PRTPPacket) :
    storedChecksum p.serialize = p.calculate_checksum := by
  have e : storedChecksum p.serialize =
      ofBytes2 (p.calculate_checksum / 256 % 256) (p.calculate_checksum % 256) :=
    rfl
  have h := chksum_le (packHeader p.seq_num p.ack_num p.window_size 0 p.flags
    p.timestamp ++ p.data)
  rw [e]; unfold ofBytes2; unfold calculate_checksum at *; omega

lemma parseFlags_serialize (p : PRTPPacket) (h : p.flags < 256) :
    parseFlags p.serialize = p.flags := by
  have e : parseFlags p.serialize = p.flags % 256 := rfl
  rw [e]; omega

lemma parseTs_serialize (p : PRTPPacket) (h : p.timestamp < 4294967296) :
    parseTs p.serialize = p.timestamp := by
  have e : parseTs p.serialize =
      ofBytes4 (p.timestamp / 16777216 % 256) (p.timestamp / 65536 % 256)
        (p.timestamp / 256 % 256) (p.timestamp % 256) := rfl
  rw [e]; unfold ofBytes4; omega

lemma drop_serialize (p : PRTPPacket) : p.serialize.drop 20 = p.data := by
  unfold serialize
  rw [packHeader_eq]
  rfl

lemma recomputedChecksum_serialize (p : PRTPPacket)
    (h1 : p.seq_num < 4294967296) (h2 : p.ack_num < 4294967296)
    (h3 : p.window_size < 65536) (h4 : p.flags < 256)
    (h5 : p.timestamp < 4294967296) :
    recomputedChecksum p.serialize = p.calculate_checksum := by
  unfold recomputedChecksum
  rw [parseSeq_serialize p h1, parseAck_serialize p h2, parseWin_serialize p h3,
    parseFlags_serialize p h4, parseTs_serialize p h5]
  show chksum (_ ++ p.serialize.drop 20) = _
  rw [drop_serialize]
  rfl

/-- Round-trip helper: deserializing a freshly serialized packet with
in-range header fields yields the packet (with its checksum attribute as
`serialize` left it). -/
lemma deserialize_serialize (p : PRTPPacket)
    (h1 : p.seq_num < 4294967296) (h2 : p.ack_num < 4294967296)
    (h3 : p.window_size < 65536) (h4 : p.flags < 256)
    (h5 : p.timestamp < 4294967296) :
    deserialize p.serialize = some p.afterSerialize := by
  unfold deserialize
  rw [if_neg, if_pos]
  · rw [storedChecksum_serialize p]
    show some _ = some _
    congr 1
    unfold afterSerialize
    cases p with
    | mk seq ack win flags data ts ck =>
        simp only [PRTPPacket.mk.injEq]
        refine ⟨parseSeq_serialize _ h1, parseAck_serialize _ h2,
          parseWin_serialize _ h3, parseFlags_serialize _ h4,
          drop_serialize _, parseTs_serialize _ h5, trivial⟩
  · rw [storedChecksum_serialize p, recomputedChecksum_serialize p h1 h2 h3 h4 h5]
  · rw [serialize_length]
    unfold HEADER_SIZE
    omega

end PRTPPacket

/-! ## Checksum sensitivity: changing one byte changes the checksum -/

lemma words_le (bs : List Nat) (h : ∀ b ∈ bs, b < 256) :
    ∀ w ∈ words bs, w ≤ 65535 := by
  induction bs using words.induct with
  | case1 => simp [words]
  | case2 b =>
    intro w hw
    simp only [words, List.mem_singleton] at hw
    subst hw
    have := h b (by simp)
    omega
  | case3 b1 b2 rest ih =>
    intro w hw
    simp only [words, List.mem_cons] at hw
    rcases hw with rfl | hw
    · have h1 := h b1 (by simp)
      have h2 := h b2 (by simp)
      omega
    · exact ih (fun b hb => h b (by simp [hb])) w hw

lemma sum_words_set (bs : List Nat) : ∀ i v, i < bs.length →
    (words (bs.set i v)).sum + (bs.getD i 0) * wScale i
      = (words bs).sum + v * wScale i := by
  induction bs using words.induct with
  | case1 => intro i v hi; simp at hi
  | case2 b =>
    intro i v hi
    simp only [List.length_singleton] at hi
    interval_cases i
    simp [words, wScale, List.set]
    ring
  | case3 b1 b2 rest ih =>
    intro i v hi
    match i with
    | 0 =>
      simp [words, wScale, List.set]
      ring
    | 1 =>
      simp [words, wScale, List.set]
      ring
    | (n + 2) =>
      simp only [List.set, words, List.sum_cons, List.getD_cons_succ]
      have hn : n < rest.length := by
        simp only [List.length_cons] at hi
        omega
      have hrec := ih n v hn
      have hsc : wScale (n + 2) = wScale n := by
        simp [wScale, Nat.add_mod_right]
      rw [hsc]
      omega

lemma foldl_checksumStep_le (ws : List Nat) : ∀ acc, acc ≤ 65535 →
    (∀ w ∈ ws, w ≤ 65535) → List.foldl checksumStep acc ws ≤ 65535 := by
  induction ws with
  | nil => intro acc h _; simpa using h
  | cons w ws ih =>
    intro acc hacc hw
    simp only [List.foldl_cons]
    refine ih _ ?_ (fun x hx => hw x (by simp [hx]))
    have := hw w (by simp)
    unfold checksumStep
    omega

lemma foldl_checksumStep_mod (ws : List Nat) : ∀ acc,
    List.foldl checksumStep acc ws % 65535 = (acc + ws.sum) % 65535 := by
  induction ws with
  | nil => intro acc; simp
  | cons w ws ih =>
    intro acc
    simp only [List.foldl_cons, List.sum_cons]
    rw [ih]
    have h : checksumStep acc w % 65535 = (acc + w) % 65535 := by
      unfold checksumStep; omega
    omega

/-- For byte strings, the checksum is determined by the word sum modulo
65535, and conversely two strings whose word sums differ modulo 65535 have
different checksums. -/
lemma chksum_ne_of_sum_ne (u v : List Nat) (hu : ∀ b ∈ u, b < 256)
    (hv : ∀ b ∈ v, b < 256)
    (hne : (words u).sum % 65535 ≠ (words v).sum % 65535) :
    chksum u ≠ chksum v := by
  unfold chksum
  have hru := foldl_checksumStep_le (words u) 0 (by omega) (words_le u hu)
  have hrv := foldl_checksumStep_le (words v) 0 (by omega) (words_le v hv)
  have hmu := foldl_checksumStep_mod (words u) 0
  have hmv := foldl_checksumStep_mod (words v) 0
  omega

set_option maxRecDepth 8192 in
/-- Flipping a single bit of a byte: the result is again a byte, differs
from the original, and differs from it by exactly `2 ^ j` in one direction. -/
lemma xor_bit_flip : ∀ b, b < 256 → ∀ j, j < 8 →
    Nat.xor b (2 ^ j) < 256 ∧ Nat.xor b (2 ^ j) ≠ b ∧
      (Nat.xor b (2 ^ j) = b + 2 ^ j ∨ b = Nat.xor b (2 ^ j) + 2 ^ j) := by
  decide

/-- Changing the byte at offset `i` of a byte string to a different byte
value that differs by a power of two below `2 ^ 8` changes the checksum. -/
lemma chksum_set_ne (bs : List Nat) (i v j : Nat) (hi : i < bs.length)
    (hb : ∀ b ∈ bs, b < 256) (hv : v < 256) (hj : j < 8)
    (hflip : v = bs.getD i 0 + 2 ^ j ∨ bs.getD i 0 = v + 2 ^ j) :
    chksum (bs.set i v) ≠ chksum bs := by
  apply chksum_ne_of_sum_ne
  · intro b hbm
    rcases List.mem_or_eq_of_mem_set hbm with h | rfl
    · exact hb b h
    · exact hv
  · exact hb
  · have hset := sum_words_set bs i v hi
    have hsc : 0 < wScale i ∧ wScale i ≤ 256 := by
      unfold wScale
      split <;> omega
    have hd : 0 < 2 ^ j * wScale i ∧ 2 ^ j * wScale i < 65535 := by
      have h8 : 2 ^ j ≤ 128 := by
        have : 2 ^ j ≤ 2 ^ 7 := Nat.pow_le_pow_right (by omega) (by omega)
        omega
      have hpos := Nat.pos_pow_of_pos j (show 0 < 2 by omega)
      constructor
      · exact Nat.mul_pos hpos hsc.1
      · nlinarith
    rcases hflip with h | h
    · have hexp : v * wScale i = bs.getD i 0 * wScale i + 2 ^ j * wScale i := by
        rw [h, Nat.add_mul]
      omega
    · have hexp : bs.getD i 0 * wScale i = v * wScale i + 2 ^ j * wScale i := by
        rw [h, Nat.add_mul]
      omega

/-! ## The buffer `deserialize` actually checksums

`deserialize` re-packs the parsed fields with a zero checksum field and zero
reserved bytes; on a byte string of valid bytes this buffer is the input
with bytes 10, 11, 13, 14 and 15 replaced by zero. -/

lemma getD_set_self (bs : List Nat) (i v : Nat) (h : i < bs.length) :
    (bs.set i v).getD i 0 = v := by
  simp [List.getD_eq_getElem?_getD, List.getElem?_set_self', h]

lemma getD_set_ne (bs : List Nat) (i j v : Nat) (h : i ≠ j) :
    (bs.set i v).getD j 0 = bs.getD j 0 := by
  simp [List.getD_eq_getElem?_getD, List.getElem?_set_ne h]

lemma getD_lt (bs : List Nat) (h : ∀ b ∈ bs, b < 256) (i : Nat) :
    bs.getD i 0 < 256 := by
  rcases Nat.lt_or_ge i bs.length with hlt | hge
  · have hm : bs.getD i 0 ∈ bs := by
      simp only [List.getD_eq_getElem?_getD, List.getElem?_eq_getElem hlt,
        Option.getD_some]
      exact List.getElem_mem hlt
    exact h _ hm
  · rw [List.getD_eq_default _ _ hge]
    omega

lemma toBytes4_ofBytes4 (b0 b1 b2 b3 : Nat) (h0 : b0 < 256) (h1 : b1 < 256)
    (h2 : b2 < 256) (h3 : b3 < 256) :
    toBytes4 (ofBytes4 b0 b1 b2 b3) = [b0, b1, b2, b3] := by
  unfold toBytes4 ofBytes4
  simp only [List.cons.injEq, and_true]
  omega

lemma toBytes2_ofBytes2 (b0 b1 : Nat) (h0 : b0 < 256) (h1 : b1 < 256) :
    toBytes2 (ofBytes2 b0 b1) = [b0, b1] := by
  unfold toBytes2 ofBytes2
  simp only [List.cons.injEq, and_true]
  omega

lemma recomputedChecksum_eq_zeroCkList (bs : List Nat)
    (hb : ∀ b ∈ bs, b < 256) :
    PRTPPacket.recomputedChecksum bs = chksum (zeroCkList bs) := by
  unfold PRTPPacket.recomputedChecksum
  congr 1
  unfold packHeader zeroCkList
  unfold PRTPPacket.parseSeq PRTPPacket.parseAck PRTPPacket.parseWin
    PRTPPacket.parseFlags PRTPPacket.parseTs
  rw [toBytes4_ofBytes4 _ _ _ _ (getD_lt bs hb 0) (getD_lt bs hb 1)
      (getD_lt bs hb 2) (getD_lt bs hb 3),
    toBytes4_ofBytes4 _ _ _ _ (getD_lt bs hb 4) (getD_lt bs hb 5)
      (getD_lt bs hb 6) (getD_lt bs hb 7),
    toBytes2_ofBytes2 _ _ (getD_lt bs hb 8) (getD_lt bs hb 9),
    toBytes4_ofBytes4 _ _ _ _ (getD_lt bs hb 16) (getD_lt bs hb 17)
      (getD_lt bs hb 18) (getD_lt bs hb 19),
    Nat.mod_eq_of_lt (getD_lt bs hb 12)]
  rfl

lemma zeroCkList_length (bs : List Nat) (h : 20 ≤ bs.length) :
    (zeroCkList bs).length = bs.length := by
  simp [zeroCkList]
  omega

lemma zeroCkList_bytes_lt (bs : List Nat) (hb : ∀ b ∈ bs, b < 256) :
    ∀ b ∈ zeroCkList bs, b < 256 := by
  intro b hbm
  unfold zeroCkList at hbm
  rcases List.mem_append.mp hbm with h | h
  · simp only [List.mem_cons, List.not_mem_nil, or_false] at h
    rcases h with rfl | rfl | rfl | rfl | rfl | rfl | rfl | rfl | rfl | rfl |
      rfl | rfl | rfl | rfl | rfl | rfl | rfl | rfl | rfl | rfl <;>
      first
        | exact getD_lt bs hb _
        | omega
  · exact hb b (List.drop_subset 20 bs h)

/-- Writing a byte at a position that feeds the recomputed checksum moves
through `zeroCkList` as the same write. -/
lemma zeroCkList_set_low (bs : List Nat) (v i : Nat) (hi : i < 20)
    (h : 20 ≤ bs.length) (h10 : i ≠ 10) (h11 : i ≠ 11) (h13 : i ≠ 13)
    (h14 : i ≠ 14) (h15 : i ≠ 15) :
    zeroCkList (bs.set i v) = (zeroCkList bs).set i v := by
  have g0 : ∀ w, (bs.set 0 w).getD 0 0 = w := fun w => getD_set_self bs 0 w (by omega)
  have g1 : ∀ w, (bs.set 1 w).getD 1 0 = w := fun w => getD_set_self bs 1 w (by omega)
  have g2 : ∀ w, (bs.set 2 w).getD 2 0 = w := fun w => getD_set_self bs 2 w (by omega)
  have g3 : ∀ w, (bs.set 3 w).getD 3 0 = w := fun w => getD_set_self bs 3 w (by omega)
  have g4 : ∀ w, (bs.set 4 w).getD 4 0 = w := fun w => getD_set_self bs 4 w (by omega)
  have g5 : ∀ w, (bs.set 5 w).getD 5 0 = w := fun w => getD_set_self bs 5 w (by omega)
  have g6 : ∀ w, (bs.set 6 w).getD 6 0 = w := fun w => getD_set_self bs 6 w (by omega)
  have g7 : ∀ w, (bs.set 7 w).getD 7 0 = w := fun w => getD_set_self bs 7 w (by omega)
  have g8 : ∀ w, (bs.set 8 w).getD 8 0 = w := fun w => getD_set_self bs 8 w (by omega)
  have g9 : ∀ w, (bs.set 9 w).getD 9 0 = w := fun w => getD_set_self bs 9 w (by omega)
  have g12 : ∀ w, (bs.set 12 w).getD 12 0 = w := fun w => getD_set_self bs 12 w (by omega)
  have g16 : ∀ w, (bs.set 16 w).getD 16 0 = w := fun w => getD_set_self bs 16 w (by omega)
  have g17 : ∀ w, (bs.set 17 w).getD 17 0 = w := fun w => getD_set_self bs 17 w (by omega)
  have g18 : ∀ w, (bs.set 18 w).getD 18 0 = w := fun w => getD_set_self bs 18 w (by omega)
  have g19 : ∀ w, (bs.set 19 w).getD 19 0 = w := fun w => getD_set_self bs 19 w (by omega)
  interval_cases i <;>
    (first
      | omega
      | (simp only [zeroCkList, getD_set_ne, g0, g1, g2, g3, g4, g5, g6, g7, g8,
          g9, g12, g16, g17, g18, g19, List.drop_set]; norm_num))

/-- Writing a byte in the checksum field or the reserved bytes does not
change the buffer the checksum is recomputed over. -/
lemma zeroCkList_set_invisible (bs : List Nat) (v i : Nat)
    (hmem : i = 10 ∨ i = 11 ∨ i = 13 ∨ i = 14 ∨ i = 15) :
    zeroCkList (bs.set i v) = zeroCkList bs := by
  rcases hmem with rfl | rfl | rfl | rfl | rfl <;>
    (simp only [zeroCkList, getD_set_ne, List.drop_set] <;> norm_num)

lemma zeroCkList_set_high (bs : List Nat) (v i : Nat) (h : 20 ≤ i) :
    zeroCkList (bs.set i v) = (zeroCkList bs).set i v := by
  have h0 : ¬ i < 20 := by omega
  have hgd : ∀ j, j < 20 → (bs.set i v).getD j 0 = bs.getD j 0 := by
    intro j hj
    exact getD_set_ne bs i j v (by omega)
  simp only [zeroCkList, List.drop_set, List.set_append, if_neg h0,
    hgd 0 (by omega), hgd 1 (by omega), hgd 2 (by omega), hgd 3 (by omega),
    hgd 4 (by omega), hgd 5 (by omega), hgd 6 (by omega), hgd 7 (by omega),
    hgd 8 (by omega), hgd 9 (by omega), hgd 12 (by omega), hgd 16 (by omega),
    hgd 17 (by omega), hgd 18 (by omega), hgd 19 (by omega)]
  simp only [List.length_cons, List.length_nil]
  rw [if_neg (by omega)]

lemma zeroCkList_getD_eq (bs : List Nat) (i : Nat) (h20 : 20 ≤ bs.length)
    (h10 : i ≠ 10) (h11 : i ≠ 11) (h13 : i ≠ 13) (h14 : i ≠ 14) (h15 : i ≠ 15) :
    (zeroCkList bs).getD i 0 = bs.getD i 0 := by
  rcases Nat.lt_or_ge i 20 with hlo | hhi
  · interval_cases i <;> first | omega | rfl
  · unfold zeroCkList
    rw [List.getD_append_right _ _ 0 i
      (by simp only [List.length_cons, List.length_nil]; omega)]
    simp only [List.length_cons, List.length_nil]
    simp only [List.getD_eq_getElem?_getD, List.getElem?_drop]
    congr 2
    omega

set_option maxHeartbeats 1600000 in
/-- Writing a different byte (a power-of-two bit apart) anywhere outside the
three reserved bytes of a checksum-valid datagram makes `deserialize`
reject the result. -/
lemma deserialize_set_eq_none (bs : List Nat) (hb : ∀ b ∈ bs, b < 256)
    (h20 : 20 ≤ bs.length)
    (hok : PRTPPacket.storedChecksum bs = PRTPPacket.recomputedChecksum bs)
    (i v j : Nat) (hi : i < bs.length) (hv : v < 256) (hj : j < 8)
    (hne : v ≠ bs.getD i 0)
    (hflip : v = bs.getD i 0 + 2 ^ j ∨ bs.getD i 0 = v + 2 ^ j)
    (h13 : i ≠ 13) (h14 : i ≠ 14) (h15 : i ≠ 15) :
    PRTPPacket.deserialize (bs.set i v) = none := by
  have hb2 : ∀ x ∈ bs.set i v, x < 256 := by
    intro x hx
    rcases List.mem_or_eq_of_mem_set hx with h | rfl
    · exact hb x h
    · exact hv
  have hzw : PRTPPacket.recomputedChecksum bs = chksum (zeroCkList bs) :=
    recomputedChecksum_eq_zeroCkList _ hb
  have hzw2 : PRTPPacket.recomputedChecksum (bs.set i v) =
      chksum (zeroCkList (bs.set i v)) :=
    recomputedChecksum_eq_zeroCkList _ hb2
  have hmain : ¬ (PRTPPacket.storedChecksum (bs.set i v) =
      PRTPPacket.recomputedChecksum (bs.set i v)) := by
    by_cases hck : i = 10 ∨ i = 11
    · -- a write inside the stored checksum field: the recomputed checksum is
      -- untouched, the stored one moves
      have hzeq : zeroCkList (bs.set i v) = zeroCkList bs :=
        zeroCkList_set_invisible _ v _ (by tauto)
      rw [hzw2, hzeq, ← hzw, ← hok]
      unfold PRTPPacket.storedChecksum ofBytes2
      rcases hck with rfl | rfl
      · rw [getD_set_self _ 10 v (by omega), getD_set_ne _ 10 11 v (by omega)]
        omega
      · rw [getD_set_self _ 11 v (by omega), getD_set_ne _ 11 10 v (by omega)]
        omega
    · -- a write that feeds the recomputed checksum: the stored checksum is
      -- untouched, the recomputed one moves
      push_neg at hck
      have hzeq : zeroCkList (bs.set i v) = (zeroCkList bs).set i v := by
        rcases Nat.lt_or_ge i 20 with hlt | hge
        · exact zeroCkList_set_low _ v _ hlt h20 hck.1 hck.2 h13 h14 h15
        · exact zeroCkList_set_high _ v _ hge
      have hstored2 : PRTPPacket.storedChecksum (bs.set i v) =
          PRTPPacket.storedChecksum bs := by
        unfold PRTPPacket.storedChecksum
        rw [getD_set_ne _ _ 10 v hck.1, getD_set_ne _ _ 11 v hck.2]
      have hckne : chksum ((zeroCkList bs).set i v) ≠ chksum (zeroCkList bs) := by
        apply chksum_set_ne _ _ _ j
        · rw [zeroCkList_length _ h20]
          exact hi
        · exact zeroCkList_bytes_lt _ hb
        · exact hv
        · exact hj
        · rw [zeroCkList_getD_eq _ _ h20 hck.1 hck.2 h13 h14 h15]
          exact hflip
      rw [hstored2, hok, hzw, hzw2, hzeq]
      exact fun he => hckne he.symm
  unfold PRTPPacket.deserialize
  rw [if_neg (by simp only [HEADER_SIZE, List.length_set]; omega), if_neg hmain]

/-- Flipping any bit of a serialized packet outside the three reserved bytes
(offsets 13, 14, 15) makes `deserialize` reject the datagram. -/
lemma deserialize_flipBit_eq_none (p : PRTPPacket)
    (h1 : p.seq_num < 4294967296) (h2 : p.ack_num < 4294967296)
    (h3 : p.window_size < 65536) (h4 : p.flags < 256)
    (h5 : p.timestamp < 4294967296) (hd : ∀ b ∈ p.data, b < 256)
    (k : Nat) (hk : k < 8 * p.serialize.length)
    (hr13 : k / 8 ≠ 13) (hr14 : k / 8 ≠ 14) (hr15 : k / 8 ≠ 15) :
    PRTPPacket.deserialize (flipBit p.serialize k) = none := by
  have hw20 : 20 ≤ p.serialize.length := by
    rw [PRTPPacket.serialize_length]
    omega
  have hwb : ∀ b ∈ p.serialize, b < 256 := PRTPPacket.serialize_bytes_lt p hd
  have hblt : p.serialize.getD (k / 8) 0 < 256 := getD_lt _ hwb _
  have hjlt : k % 8 < 8 := Nat.mod_lt _ (by omega)
  obtain ⟨hv256, hvne, hvflip⟩ := xor_bit_flip _ hblt _ hjlt
  exact deserialize_set_eq_none p.serialize hwb hw20
    (by rw [PRTPPacket.storedChecksum_serialize p,
      PRTPPacket.recomputedChecksum_serialize p h1 h2 h3 h4 h5])
    (k / 8) _ (k % 8) (by omega) hv256 hjlt hvne hvflip hr13 hr14 hr15

/-! ## Claim C1: codec round-trip -/

/-- C1. For every packet `p` with in-range header fields (`seq_num` and
`ack_num` below 2^32, `window_size` below 2^16, `flags` below 2^8,
`timestamp` below 2^32) and payload of at most 1024 bytes,
`deserialize (serialize p)` returns a packet (not none) whose `seq_num`,
`ack_num`, `window_size`, `flags`, `timestamp`, `checksum` and payload all
equal those of `p` after serialization. -/
theorem claim_C1_codec_roundtrip (p : PRTPPacket)
    (h1 : p.seq_num < 4294967296) (h2 : p.ack_num < 4294967296)
    (h3 : p.window_size < 65536) (h4 : p.flags < 256)
    (h5 : p.timestamp < 4294967296)
    (hlen : p.data.length <= 1024) (hd : ∀ b ∈ p.data, b < 256) :
    PRTPPacket.deserialize p.serialize = some p.afterSerialize :=
  PRTPPacket.deserialize_serialize p h1 h2 h3 h4 h5

/-- Witness for C1 at a concrete packet. -/
theorem claim_C1_codec_roundtrip_witness :
    samplePacket.seq_num < 4294967296 ∧ samplePacket.window_size < 65536 ∧
    samplePacket.data.length <= 1024 ∧ (∀ b ∈ samplePacket.data, b < 256) ∧
    PRTPPacket.deserialize samplePacket.serialize = some samplePacket.afterSerialize :=
  ⟨by decide, by decide, by decide, by decide,
    claim_C1_codec_roundtrip samplePacket (by decide) (by decide) (by decide)
      (by decide) (by decide) (by decide) (by decide)⟩

/-! ## Claim C2: checksum rejection of bit flips (corrected) -/

/-- C2 as stated is false: flipping a bit inside one of the three reserved
bytes (here bit 104, i.e. bit 0 of byte 13) of a serialized packet is NOT
rejected — `deserialize` discards the reserved bytes and recomputes the
checksum with zeros there, so the flipped datagram still deserializes. -/
theorem claim_C2_counterexample :
    ¬ (PRTPPacket.deserialize (flipBit samplePacket.serialize 104) = none) := by
  decide

/-- C2 (amended): for every packet with in-range header fields and payload
of at most 1024 bytes, flipping any single bit of the serialization whose
byte offset is NOT one of the three reserved bytes (offsets 13, 14, 15)
makes `deserialize` return none. -/
theorem claim_C2_checksum_rejection (p : PRTPPacket)
    (h1 : p.seq_num < 4294967296) (h2 : p.ack_num < 4294967296)
    (h3 : p.window_size < 65536) (h4 : p.flags < 256)
    (h5 : p.timestamp < 4294967296)
    (hlen : p.data.length <= 1024) (hd : ∀ b ∈ p.data, b < 256)
    (k : Nat) (hk : k < 8 * p.serialize.length)
    (hr13 : k / 8 ≠ 13) (hr14 : k / 8 ≠ 14) (hr15 : k / 8 ≠ 15) :
    PRTPPacket.deserialize (flipBit p.serialize k) = none :=
  deserialize_flipBit_eq_none p h1 h2 h3 h4 h5 hd k hk hr13 hr14 hr15

/-- Witness for C2 (amended) at a concrete packet and bit position 0. -/
theorem claim_C2_checksum_rejection_witness :
    (0 : Nat) < 8 * samplePacket.serialize.length ∧
    PRTPPacket.deserialize (flipBit samplePacket.serialize 0) = none :=
  ⟨by decide,
    claim_C2_checksum_rejection samplePacket (by decide) (by decide) (by decide)
      (by decide) (by decide) (by decide) (by decide) 0 (by decide) (by decide)
      (by decide) (by decide)⟩

/-! ## Claim C9: deserialize enforces no upper length bound -/

/-- C9. `deserialize` enforces no upper bound on input length: every byte
string of length at least 20 whose recomputed checksum matches the stored
checksum field deserializes to a packet whose payload is the entire
remainder after the 20-byte header — also when that payload exceeds 1024
bytes. -/
theorem claim_C9_deserialize_unbounded (bs : List Nat) (h20 : 20 ≤ bs.length)
    (hok : PRTPPacket.storedChecksum bs = PRTPPacket.recomputedChecksum bs) :
    PRTPPacket.deserialize bs =
      some { seq_num := PRTPPacket.parseSeq bs, ack_num := PRTPPacket.parseAck bs,
             window_size := PRTPPacket.parseWin bs,
             flags := PRTPPacket.parseFlags bs,
             data := bs.drop HEADER_SIZE, timestamp := PRTPPacket.parseTs bs,
             checksum := PRTPPacket.storedChecksum bs } := by
  unfold PRTPPacket.deserialize
  rw [if_neg (by unfold HEADER_SIZE; omega), if_pos hok]

set_option maxRecDepth 10000 in
/-- Witness for C9 at a concrete 1045-byte datagram (longer than
`MAX_PACKET_SIZE` = 1044): it is accepted with a 1025-byte payload. -/
theorem claim_C9_deserialize_unbounded_witness :
    20 ≤ bigPacket.serialize.length ∧ 1044 < bigPacket.serialize.length ∧
    PRTPPacket.deserialize bigPacket.serialize =
      some { seq_num := PRTPPacket.parseSeq bigPacket.serialize,
             ack_num := PRTPPacket.parseAck bigPacket.serialize,
             window_size := PRTPPacket.parseWin bigPacket.serialize,
             flags := PRTPPacket.parseFlags bigPacket.serialize,
             data := bigPacket.serialize.drop HEADER_SIZE,
             timestamp := PRTPPacket.parseTs bigPacket.serialize,
             checksum := PRTPPacket.storedChecksum bigPacket.serialize } := by
  have hlen : bigPacket.serialize.length = 1045 := by
    rw [PRTPPacket.serialize_length]
    show 20 + (List.replicate 1025 65).length = 1045
    rw [List.length_replicate]
  have hok : PRTPPacket.storedChecksum bigPacket.serialize =
      PRTPPacket.recomputedChecksum bigPacket.serialize := by
    rw [PRTPPacket.storedChecksum_serialize bigPacket,
      PRTPPacket.recomputedChecksum_serialize bigPacket (by decide) (by decide)
        (by decide) (by decide) (by decide)]
  exact ⟨by omega, by omega, claim_C9_deserialize_unbounded bigPacket.serialize
    (by omega) hok⟩


/-! ## Claim C3: receiver frame handling -/

/-- C3. For every receiver state and incoming frame: an in-order frame is
appended to the delivery buffer, the available window is recomputed as
`max(0, max_buffer - buffer length)`, one ACK carrying the old
`expected_seq` and the recomputed window is sent, and `expected_seq` is
incremented; a duplicate (below `expected_seq`) only triggers one ACK
carrying the duplicate's own sequence number; a gap (above `expected_seq`)
is discarded with one ACK for `expected_seq - 1` when `expected_seq > 0`
and no ACK when `expected_seq = 0`. -/
theorem claim_C3_receiver_frame_handling (st : GoBackNReceiver)
    (packet : PRTPPacket) :
    (packet.seq_num = st.expected_seq →
      st.handle_incoming_frame packet =
        ({ seq_num := st.seq_num, expected_seq := st.expected_seq + 1,
           received_data := st.received_data ++ packet.data,
           available_buffer :=
             max 0 (MAX_BUFFER_SIZE - (st.received_data ++ packet.data).length) },
         [{ seq_num := st.seq_num, ack_num := st.expected_seq,
            window_size :=
              max 0 (MAX_BUFFER_SIZE - (st.received_data ++ packet.data).length),
            flags := FLAG_ACK, data := [], timestamp := 0, checksum := 0 }],
         true)) ∧
    (packet.seq_num < st.expected_seq →
      st.handle_incoming_frame packet =
        (st, [{ seq_num := st.seq_num, ack_num := packet.seq_num,
                window_size := st.available_buffer, flags := FLAG_ACK,
                data := [], timestamp := 0, checksum := 0 }], false)) ∧
    (st.expected_seq < packet.seq_num →
      (0 < st.expected_seq →
        st.handle_incoming_frame packet =
          (st, [{ seq_num := st.seq_num, ack_num := st.expected_seq - 1,
                  window_size := st.available_buffer, flags := FLAG_ACK,
                  data := [], timestamp := 0, checksum := 0 }], false)) ∧
      (st.expected_seq = 0 →
        st.handle_incoming_frame packet = (st, [], false))) := by
  unfold GoBackNReceiver.handle_incoming_frame GoBackNReceiver.send_ack
  refine ⟨fun h => ?_, fun h => ?_, fun h => ⟨fun h0 => ?_, fun h0 => ?_⟩⟩
  · rw [if_pos h]
    simp [Nat.zero_max]
  · rw [if_neg (by omega), if_pos h]
  · rw [if_neg (by omega), if_neg (by omega), if_pos h0]
  · rw [if_neg (by omega), if_neg (by omega), if_neg (by omega)]

/-- Witness for C3 at a concrete in-order delivery. -/
theorem claim_C3_receiver_frame_handling_witness :
    dataPacket1.seq_num = sampleReceiver.expected_seq ∧
    sampleReceiver.handle_incoming_frame dataPacket1 =
      ({ seq_num := 0, expected_seq := 2, received_data := [104, 100],
         available_buffer := 65533 },
       [{ seq_num := 0, ack_num := 1, window_size := 65533, flags := FLAG_ACK,
          data := [], timestamp := 0, checksum := 0 }], true) := by
  have h := (claim_C3_receiver_frame_handling sampleReceiver dataPacket1).1 rfl
  refine ⟨rfl, ?_⟩
  rw [h]
  decide

/-! ## Claim C5: unexpected flags during the data phase (corrected) -/

/-- C5 as stated is false: a checksum-valid SYN packet (flags = SYN, no ACK)
arriving during the data phase is NOT silently dropped — when its sequence
number matches `expected_seq`, the receive loop appends its payload and
sends an ACK. -/
theorem claim_C5_counterexample :
    ¬ ((sampleReceiver.receiveStep synDataPacket.serialize).1 = sampleReceiver ∧
       (sampleReceiver.receiveStep synDataPacket.serialize).2 = []) := by
  decide

/-- C5 (amended): the receiver's data phase inspects no flags at all: every
checksum-valid datagram — whatever its flags, including SYN without ACK —
is handed to `handle_incoming_frame` and processed purely by sequence
number. -/
theorem claim_C5_flags_not_filtered (st : GoBackNReceiver) (p : PRTPPacket)
    (h1 : p.seq_num < 4294967296) (h2 : p.ack_num < 4294967296)
    (h3 : p.window_size < 65536) (h4 : p.flags < 256)
    (h5 : p.timestamp < 4294967296) :
    st.receiveStep p.serialize =
      ((st.handle_incoming_frame p.afterSerialize).1,
       (st.handle_incoming_frame p.afterSerialize).2.1) := by
  unfold GoBackNReceiver.receiveStep
  rw [PRTPPacket.deserialize_serialize p h1 h2 h3 h4 h5]

/-- Witness for C5 (amended) at a concrete SYN packet. -/
theorem claim_C5_flags_not_filtered_witness :
    synDataPacket.flags = FLAG_SYN ∧
    sampleReceiver.receiveStep synDataPacket.serialize =
      ((sampleReceiver.handle_incoming_frame synDataPacket.afterSerialize).1,
       (sampleReceiver.handle_incoming_frame synDataPacket.afterSerialize).2.1) :=
  ⟨by decide,
    claim_C5_flags_not_filtered sampleReceiver synDataPacket (by decide)
      (by decide) (by decide) (by decide) (by decide)⟩

/-! ## Claim C10: in-order data is accepted regardless of buffer space -/

/-- C10. The receiver accepts an in-order segment regardless of remaining
buffer space: with no hypothesis on `available_buffer` (it may be 0), a
frame with `seq_num = expected_seq` has its full payload appended to
`received_data`, and the advertised window is merely clamped at 0. -/
theorem claim_C10_in_order_accepted (st : GoBackNReceiver) (packet : PRTPPacket)
    (hseq : packet.seq_num = st.expected_seq) :
    (st.handle_incoming_frame packet).1.received_data =
      st.received_data ++ packet.data ∧
    (st.handle_incoming_frame packet).1.available_buffer =
      max 0 (MAX_BUFFER_SIZE - (st.received_data ++ packet.data).length) ∧
    (st.handle_incoming_frame packet).2.2 = true := by
  unfold GoBackNReceiver.handle_incoming_frame
  rw [if_pos hseq]
  simp [Nat.zero_max]

set_option maxRecDepth 10000 in
/-- Witness for C10: a receiver whose buffer is already full (65535 bytes
held, `available_buffer = 0`) still accepts in-order data; the delivery
buffer grows to 65537 bytes, beyond `MAX_BUFFER_SIZE`, and the advertised
window is clamped at 0. -/
theorem claim_C10_in_order_accepted_witness :
    fullReceiver.available_buffer = 0 ∧
    fullPacket.seq_num = fullReceiver.expected_seq ∧
    (fullReceiver.handle_incoming_frame fullPacket).1.received_data =
      List.replicate 65535 1 ++ [7, 7] ∧
    (fullReceiver.handle_incoming_frame fullPacket).1.received_data.length
      = 65537 ∧
    (fullReceiver.handle_incoming_frame fullPacket).1.available_buffer = 0 ∧
    (fullReceiver.handle_incoming_frame fullPacket).2.2 = true := by
  obtain ⟨h1, h2, h3⟩ :=
    claim_C10_in_order_accepted fullReceiver fullPacket rfl
  refine ⟨rfl, rfl, h1, ?_, ?_, h3⟩
  · rw [h1]
    have e1 : fullReceiver.received_data = List.replicate 65535 1 := rfl
    have e2 : fullPacket.data = [7, 7] := rfl
    rw [e1, e2, List.length_append, List.length_replicate]
    rfl
  · rw [h2]
    have e1 : fullReceiver.received_data = List.replicate 65535 1 := rfl
    have e2 : fullPacket.data = [7, 7] := rfl
    rw [e1, e2, List.length_append, List.length_replicate]
    rfl

/-! ## Sender step reduction lemmas -/

lemma stepSend_pos (st : GoBackNSender)
    (h : st.next_seq_num < st.total_packets ∧
      st.next_seq_num < st.base + st.effectiveWindow) :
    st.stepSend =
      ({ st with
          send_buffer := fun k =>
            if k = st.next_seq_num then some (st.dataPacket st.next_seq_num).data
            else st.send_buffer k,
          timer_running :=
            if st.base = st.next_seq_num then true else st.timer_running,
          next_seq_num := st.next_seq_num + 1 },
        [st.dataPacket st.next_seq_num]) := by
  unfold GoBackNSender.stepSend
  rw [if_pos h]

lemma stepSend_neg (st : GoBackNSender)
    (h : ¬ (st.next_seq_num < st.total_packets ∧
      st.next_seq_num < st.base + st.effectiveWindow)) :
    st.stepSend = (st, []) := by
  unfold GoBackNSender.stepSend
  rw [if_neg h]

lemma stepAck_stale (st : GoBackNSender) (p : PRTPPacket)
    (h : p.ack_num < st.base) :
    st.stepAck p =
      ({ st with
          receiver_window := if p.window_size > 0 then p.window_size else 65535 },
        []) := by
  simp only [GoBackNSender.stepAck]
  rw [if_neg (by omega)]

lemma stepAck_covering_ss (st : GoBackNSender) (p : PRTPPacket)
    (hbase : st.base ≤ p.ack_num) (hs : st.state = CState.slow_start) :
    st.stepAck p =
      ({ st with
          receiver_window := if p.window_size > 0 then p.window_size else 65535,
          cwnd := st.cwnd + ((p.ack_num - st.base + 1 : Nat) : ℚ),
          state :=
            if st.cwnd + ((p.ack_num - st.base + 1 : Nat) : ℚ) ≥ st.ssthresh
            then CState.congestion_avoidance else CState.slow_start,
          send_buffer := fun k =>
            if st.base ≤ k ∧ k ≤ p.ack_num then none else st.send_buffer k,
          base := p.ack_num + 1,
          timer_running := decide (p.ack_num + 1 < st.next_seq_num) },
        []) := by
  simp only [GoBackNSender.stepAck, hs]
  rw [if_pos (by omega)]

lemma stepAck_covering_ca (st : GoBackNSender) (p : PRTPPacket)
    (hbase : st.base ≤ p.ack_num) (hs : st.state = CState.congestion_avoidance) :
    st.stepAck p =
      ({ st with
          receiver_window := if p.window_size > 0 then p.window_size else 65535,
          cwnd := st.cwnd + ((p.ack_num - st.base + 1 : Nat) : ℚ) / st.cwnd,
          send_buffer := fun k =>
            if st.base ≤ k ∧ k ≤ p.ack_num then none else st.send_buffer k,
          base := p.ack_num + 1,
          timer_running := decide (p.ack_num + 1 < st.next_seq_num) },
        []) := by
  simp only [GoBackNSender.stepAck, hs]
  rw [if_pos (by omega)]

lemma stepTimeout_fires (st : GoBackNSender) (h1 : st.timer_running = true)
    (h2 : st.base < st.total_packets) :
    st.stepTimeout =
      ({ st with
          ssthresh := max (st.cwnd / 2) 2,
          cwnd := 1,
          state := CState.slow_start,
          timer_running := true },
        st.retransmitPackets) := by
  unfold GoBackNSender.stepTimeout
  rw [if_pos ⟨h1, h2⟩]

lemma stepTimeout_idle (st : GoBackNSender)
    (h : ¬ (st.timer_running = true ∧ st.base < st.total_packets)) :
    st.stepTimeout = (st, []) := by
  unfold GoBackNSender.stepTimeout
  rw [if_neg h]

/-! ## Claim C4: stale ACKs (corrected) -/

/-- C4 as stated is false: a stale ACK (`ack_num = 3` below `base = 5`)
does change sender state — `receiver_window` is overwritten with the ACK's
advertised window before the `ack_num >= base` test. -/
theorem claim_C4_counterexample :
    staleAck.ack_num < sampleSender.base ∧
    ¬ ((sampleSender.stepAck staleAck).1.receiver_window =
        sampleSender.receiver_window) := by
  decide

/-- C4 (amended). Handling an ACK whose `ack_num` is strictly below `base`
leaves `base`, `next_seq_num`, `send_buffer`, `cwnd`, `ssthresh`, the
congestion state, the chunk list, the window cap and the timer unchanged
and retransmits nothing — but it does overwrite `receiver_window` with the
ACK's advertised window (0 mapped to 65535). -/
theorem claim_C4_stale_ack (st : GoBackNSender) (p : PRTPPacket)
    (hstale : p.ack_num < st.base) :
    (st.stepAck p).1.base = st.base ∧
    (st.stepAck p).1.next_seq_num = st.next_seq_num ∧
    (st.stepAck p).1.send_buffer = st.send_buffer ∧
    (st.stepAck p).1.cwnd = st.cwnd ∧
    (st.stepAck p).1.ssthresh = st.ssthresh ∧
    (st.stepAck p).1.state = st.state ∧
    (st.stepAck p).1.timer_running = st.timer_running ∧
    (st.stepAck p).1.chunks = st.chunks ∧
    (st.stepAck p).1.max_window_size = st.max_window_size ∧
    (st.stepAck p).2 = [] ∧
    (st.stepAck p).1.receiver_window =
      (if p.window_size > 0 then p.window_size else 65535) := by
  rw [stepAck_stale st p hstale]
  exact ⟨rfl, rfl, rfl, rfl, rfl, rfl, rfl, rfl, rfl, rfl, rfl⟩

/-- Witness for C4 (amended) at `sampleSender` and `staleAck`. -/
theorem claim_C4_stale_ack_witness :
    staleAck.ack_num < sampleSender.base ∧
    (sampleSender.stepAck staleAck).1.base = sampleSender.base ∧
    (sampleSender.stepAck staleAck).2 = [] ∧
    (sampleSender.stepAck staleAck).1.receiver_window =
      (if staleAck.window_size > 0 then staleAck.window_size else 65535) := by
  have h := claim_C4_stale_ack sampleSender staleAck (by decide)
  exact ⟨by decide, h.1, h.2.2.2.2.2.2.2.2.2.1, h.2.2.2.2.2.2.2.2.2.2⟩

/-! ## Claim C7: AIMD bounds -/

lemma one_le_cwnd_step (st : GoBackNSender) (e : GoBackNSender.Event)
    (h : 1 ≤ st.cwnd) : 1 ≤ ((st.step e).1).cwnd := by
  cases e with
  | send =>
    show 1 ≤ (st.stepSend).1.cwnd
    by_cases hg : st.next_seq_num < st.total_packets ∧
        st.next_seq_num < st.base + st.effectiveWindow
    · rw [stepSend_pos st hg]
      exact h
    · rw [stepSend_neg st hg]
      exact h
  | ack p =>
    show 1 ≤ (st.stepAck p).1.cwnd
    rcases Nat.lt_or_ge p.ack_num st.base with hlt | hge
    · rw [stepAck_stale st p hlt]
      exact h
    · cases hs : st.state with
      | slow_start =>
        rw [stepAck_covering_ss st p hge hs]
        show 1 ≤ st.cwnd + ((p.ack_num - st.base + 1 : Nat) : ℚ)
        have hc : (0 : ℚ) ≤ ((p.ack_num - st.base + 1 : Nat) : ℚ) :=
          Nat.cast_nonneg _
        linarith
      | congestion_avoidance =>
        rw [stepAck_covering_ca st p hge hs]
        show 1 ≤ st.cwnd + ((p.ack_num - st.base + 1 : Nat) : ℚ) / st.cwnd
        have h0 : (0 : ℚ) < st.cwnd := lt_of_lt_of_le one_pos h
        have hc : (0 : ℚ) ≤ ((p.ack_num - st.base + 1 : Nat) : ℚ) / st.cwnd :=
          div_nonneg (Nat.cast_nonneg _) h0.le
        linarith
  | timeout =>
    show 1 ≤ (st.stepTimeout).1.cwnd
    by_cases hg : st.timer_running = true ∧ st.base < st.total_packets
    · rw [stepTimeout_fires st hg.1 hg.2]
    · rw [stepTimeout_idle st hg]
      exact h

lemma one_le_cwnd_run (evs : List GoBackNSender.Event) :
    ∀ st : GoBackNSender, 1 ≤ st.cwnd → 1 ≤ (st.run evs).cwnd := by
  induction evs with
  | nil => intro st h; exact h
  | cons e es ih => intro st h; exact ih _ (one_le_cwnd_step st e h)

/-- C7. From the initial congestion state (`cwnd = 1.0`, `ssthresh = 16.0`,
slow start): `cwnd` stays at least 1.0 after every sequence of events; a
firing timeout sets `cwnd = 1.0`, `ssthresh = max(prev_cwnd / 2, 2.0)` and
the state back to slow start; a cumulative ACK covering
`k = ack_num - base + 1` new segments increases `cwnd` by `k` in slow start
(switching to congestion avoidance exactly when `cwnd` reaches `ssthresh`)
and by `k / cwnd` in congestion avoidance. -/
theorem claim_C7_aimd_bounds :
    (∀ (s0 : Nat) (chunks : List (List Nat)) (rwnd maxw : Nat)
        (evs : List GoBackNSender.Event),
        1 ≤ ((GoBackNSender.mkInit s0 chunks rwnd maxw).run evs).cwnd) ∧
    (∀ st : GoBackNSender, st.timer_running = true →
        st.base < st.total_packets →
        (st.stepTimeout).1.cwnd = 1 ∧
        (st.stepTimeout).1.ssthresh = max (st.cwnd / 2) 2 ∧
        (st.stepTimeout).1.state = CState.slow_start) ∧
    (∀ (st : GoBackNSender) (p : PRTPPacket), st.base ≤ p.ack_num →
        (st.state = CState.slow_start →
          (st.stepAck p).1.cwnd =
            st.cwnd + ((p.ack_num - st.base + 1 : Nat) : ℚ) ∧
          (st.stepAck p).1.state =
            (if st.cwnd + ((p.ack_num - st.base + 1 : Nat) : ℚ) ≥ st.ssthresh
             then CState.congestion_avoidance else CState.slow_start)) ∧
        (st.state = CState.congestion_avoidance →
          (st.stepAck p).1.cwnd =
            st.cwnd + ((p.ack_num - st.base + 1 : Nat) : ℚ) / st.cwnd)) := by
  refine ⟨?_, ?_, ?_⟩
  · intro s0 chunks rwnd maxw evs
    exact one_le_cwnd_run evs _ (le_refl 1)
  · intro st h1 h2
    rw [stepTimeout_fires st h1 h2]
    exact ⟨rfl, rfl, rfl⟩
  · intro st p hbase
    constructor
    · intro hs
      rw [stepAck_covering_ss st p hbase hs]
      exact ⟨rfl, rfl⟩
    · intro hs
      rw [stepAck_covering_ca st p hbase hs]

/-- Witness for C7 at concrete states: the trace invariant after one send,
and the multiplicative-decrease equations at `sampleSender` (whose timer is
running with `base < total_packets`). -/
theorem claim_C7_aimd_bounds_witness :
    1 ≤ ((GoBackNSender.mkInit 0 [[1]] 65535 64).run
      [GoBackNSender.Event.send]).cwnd ∧
    sampleSender.timer_running = true ∧
    sampleSender.base < sampleSender.total_packets ∧
    (sampleSender.stepTimeout).1.cwnd = 1 ∧
    (sampleSender.stepTimeout).1.ssthresh = max (sampleSender.cwnd / 2) 2 ∧
    (sampleSender.stepTimeout).1.state = CState.slow_start := by
  obtain ⟨ha, hb, hc⟩ := claim_C7_aimd_bounds
  obtain ⟨k1, k2, k3⟩ := hb sampleSender rfl (by decide)
  exact ⟨ha 0 [[1]] 65535 64 [GoBackNSender.Event.send], rfl, by decide,
    k1, k2, k3⟩

/-! ## Claim C6: the effective window (corrected) -/

/-- C6 as stated is false: the number of in-flight segments can exceed
`min(floor cwnd, floor(rwnd_bytes / 1024), max_window_segs)` computed on
the current state. In the trace `c6Events` the sender emits segment 1
(window 1), then a stale ACK advertises a 500-byte window: the segment is
still in flight (`next_seq_num - base = 1`) while the effective window has
dropped to `min(1, 500 / 1024, 64) = 0`. -/
theorem claim_C6_counterexample :
    (senderInitB.run c6Events).next_seq_num - (senderInitB.run c6Events).base
      = 1 ∧
    (senderInitB.run c6Events).effectiveWindow = 0 ∧
    (senderInitB.run c6Events).effectiveWindow <
      (senderInitB.run c6Events).next_seq_num -
        (senderInitB.run c6Events).base := by
  decide

/-- C6 (amended). The transmission guard respects the effective window: a
fresh segment is emitted only while
`next_seq_num < base + min(floor cwnd, floor(rwnd_bytes / 1024),
max_window_segs)`, and immediately after such a send the number of
in-flight segments is at most that effective window (computed on the
current state); when `next_seq_num` has reached `base` plus the effective
window, no segment is sent. After events that shrink `cwnd` or
`rwnd_bytes` (for example a timeout), the in-flight count can exceed the
recomputed bound until ACKs advance `base`. -/
theorem claim_C6_window_respected (st : GoBackNSender) :
    ((st.stepSend).2 ≠ [] →
      st.next_seq_num < st.base + st.effectiveWindow ∧
      (st.stepSend).1.next_seq_num - (st.stepSend).1.base ≤
        st.effectiveWindow) ∧
    (st.base + st.effectiveWindow ≤ st.next_seq_num →
      st.stepSend = (st, [])) := by
  by_cases hg : st.next_seq_num < st.total_packets ∧
      st.next_seq_num < st.base + st.effectiveWindow
  · constructor
    · intro hne
      rw [stepSend_pos st hg]
      refine ⟨hg.2, ?_⟩
      show st.next_seq_num + 1 - st.base ≤ st.effectiveWindow
      omega
    · intro hle
      exact absurd hle (by omega)
  · constructor
    · intro hne
      rw [stepSend_neg st hg] at hne
      exact absurd rfl hne
    · intro hle
      exact stepSend_neg st hg

/-- Witness for C6 (amended) at a freshly connected sender, which sends its
first segment within the window. -/
theorem claim_C6_window_respected_witness :
    (senderInit3.stepSend).2 ≠ [] ∧
    senderInit3.next_seq_num < senderInit3.base + senderInit3.effectiveWindow ∧
    (senderInit3.stepSend).1.next_seq_num - (senderInit3.stepSend).1.base ≤
      senderInit3.effectiveWindow := by
  have h := (claim_C6_window_respected senderInit3).1 (by decide)
  exact ⟨by decide, h.1, h.2⟩

/-! ## Claim C8: the sliding-window invariant (corrected) -/

lemma windowInv_mkInit (s0 : Nat) (chunks : List (List Nat)) (rwnd maxw : Nat) :
    (GoBackNSender.mkInit s0 chunks rwnd maxw).WindowInv := by
  refine ⟨le_refl _, ?_, ?_⟩
  · intro k
    show (none : Option (List Nat)).isSome = true ↔ s0 ≤ k ∧ k < s0
    simp <;> omega
  · show false = true ↔ s0 < s0
    simp

lemma windowInv_stepSend (st : GoBackNSender) (h : st.WindowInv) :
    ((st.stepSend).1).WindowInv := by
  obtain ⟨h1, h2, h3⟩ := h
  by_cases hg : st.next_seq_num < st.total_packets ∧
      st.next_seq_num < st.base + st.effectiveWindow
  · rw [stepSend_pos st hg]
    refine ⟨?_, ?_, ?_⟩
    · show st.base ≤ st.next_seq_num + 1
      omega
    · intro k
      show (if k = st.next_seq_num then some (st.dataPacket st.next_seq_num).data
        else st.send_buffer k).isSome = true ↔
          st.base ≤ k ∧ k < st.next_seq_num + 1
      by_cases hk : k = st.next_seq_num
      · rw [if_pos hk]
        simp
        omega
      · rw [if_neg hk]
        rw [h2 k]
        omega
    · show (if st.base = st.next_seq_num then true else st.timer_running) = true
        ↔ st.base < st.next_seq_num + 1
      by_cases hb : st.base = st.next_seq_num
      · rw [if_pos hb]
        simp
        omega
      · rw [if_neg hb]
        rw [h3]
        omega
  · rw [stepSend_neg st hg]
    exact ⟨h1, h2, h3⟩

lemma windowInv_stepAck (st : GoBackNSender) (p : PRTPPacket)
    (h : st.WindowInv)
    (hv : p.ack_num < st.next_seq_num ∨ p.ack_num < st.base) :
    ((st.stepAck p).1).WindowInv := by
  obtain ⟨h1, h2, h3⟩ := h
  rcases Nat.lt_or_ge p.ack_num st.base with hlt | hge
  · rw [stepAck_stale st p hlt]
    exact ⟨h1, h2, h3⟩
  · have hna : p.ack_num < st.next_seq_num := by
      rcases hv with hv | hv
      · exact hv
      · omega
    have core : ∀ q : GoBackNSender,
        q.base = p.ack_num + 1 →
        q.next_seq_num = st.next_seq_num →
        q.send_buffer = (fun k =>
          if st.base ≤ k ∧ k ≤ p.ack_num then none else st.send_buffer k) →
        q.timer_running = decide (p.ack_num + 1 < st.next_seq_num) →
        q.WindowInv := by
      intro q hqb hqn hqs hqt
      refine ⟨?_, ?_, ?_⟩
      · rw [hqb, hqn]
        omega
      · intro k
        rw [hqb, hqn, hqs]
        simp only []
        by_cases hk : st.base ≤ k ∧ k ≤ p.ack_num
        · rw [if_pos hk]
          simp
          omega
        · rw [if_neg hk]
          rw [h2 k]
          omega
      · rw [hqb, hqn, hqt]
        simp
    cases hs : st.state with
    | slow_start =>
      rw [stepAck_covering_ss st p hge hs]
      exact core _ rfl rfl rfl rfl
    | congestion_avoidance =>
      rw [stepAck_covering_ca st p hge hs]
      exact core _ rfl rfl rfl rfl

lemma windowInv_stepTimeout (st : GoBackNSender) (h : st.WindowInv) :
    ((st.stepTimeout).1).WindowInv := by
  obtain ⟨h1, h2, h3⟩ := h
  by_cases hg : st.timer_running = true ∧ st.base < st.total_packets
  · rw [stepTimeout_fires st hg.1 hg.2]
    refine ⟨h1, h2, ?_⟩
    show true = true ↔ st.base < st.next_seq_num
    simp
    exact h3.mp hg.1
  · rw [stepTimeout_idle st hg]
    exact ⟨h1, h2, h3⟩

/-- C8 as stated is false: an ACK-flagged packet whose `ack_num` is at or
above `next_seq_num` (acknowledging a segment that was never sent) drives
`base` past `next_seq_num`. From the reachable one-in-flight state, the
ACK with `ack_num = 5` leaves `base = 6 > next_seq_num = 1`. -/
theorem claim_C8_counterexample :
    GoBackNSender.ReachableFrom senderInit1 senderAfterSend1 ∧
    senderAfterSend1.base ≤ wildAck.ack_num ∧
    ¬ ((senderAfterSend1.stepAck wildAck).1.base ≤
        (senderAfterSend1.stepAck wildAck).1.next_seq_num) :=
  ⟨GoBackNSender.ReachableFrom.send GoBackNSender.ReachableFrom.refl,
    by decide, by decide⟩

/-- C8 (amended). For every sender state reachable from a freshly connected
sender by sends, timeouts and ACKs that acknowledge only sequence numbers
below `next_seq_num` (every ACK the protocol's own receiver can produce),
the sliding-window invariant holds: `base ≤ next_seq_num`, the send buffer
holds exactly the keys in `[base, next_seq_num)`, and the retransmission
timer is running iff `base < next_seq_num`. -/
theorem claim_C8_window_invariant (s0 : Nat) (chunks : List (List Nat))
    (rwnd maxw : Nat) (st : GoBackNSender)
    (h : GoBackNSender.ReachableFrom
      (GoBackNSender.mkInit s0 chunks rwnd maxw) st) :
    st.WindowInv := by
  induction h with
  | refl => exact windowInv_mkInit s0 chunks rwnd maxw
  | send hr ih => exact windowInv_stepSend _ ih
  | ack p hr hv ih => exact windowInv_stepAck _ p ih hv
  | timeout hr ih => exact windowInv_stepTimeout _ ih

/-- Witness for C8 (amended) at the reachable state reached by one send. -/
theorem claim_C8_window_invariant_witness :
    senderAfterSend1.WindowInv :=
  claim_C8_window_invariant 0 [[1]] 65535 64 senderAfterSend1
    (GoBackNSender.ReachableFrom.send GoBackNSender.ReachableFrom.refl)

end PRTP
